import Mathlib

/-!
Shallow embedding of the `Movable` drag controller from
`src/packages/web/src/main.rs` (JadeOS).

The component keeps six signals: `position`, `dragging`, `mounted`,
`active_pointer_id`, `click_origin`, `modal_origin`.  Each event handler is
embedded as a pure function on a state record; handlers that may request or
release native pointer capture additionally return the list of capture calls
they issue (the Rust code fires them best-effort and ignores the result, so
the calls are modelled as an effect log).  Client coordinates are `f64` in
the source; they are modelled as rationals, since every claim is about the
exact additive arithmetic of the handlers, not about rounding.
-/

namespace Jade

/-- Mouse buttons, as in `dioxus::html::input_data::MouseButton`. -/
inductive MouseButton where
  | Primary
  | Secondary
  | Auxiliary
  | Fourth
  | Fifth
  | Unknown
  deriving DecidableEq, Repr

/-- The fields of a pointer event read by the handlers: `pointer_id()`,
`trigger_button()` and the client coordinates of `coordinates()`. -/
structure PointerData where
  pointer_id : Int
  trigger_button : Option MouseButton
  client : ℚ × ℚ
  deriving DecidableEq, Repr

/-- A best-effort native pointer-capture call issued by a handler. -/
inductive CaptureCall where
  | set_pointer_capture (pid : Int)
  | release_pointer_capture (pid : Int)
  deriving DecidableEq, Repr

/-- The signals of one `Movable` instance.  `mounted` records whether a
mounted handle convertible to a web event is stored (the Rust code keeps the
`Rc<MountedData>` itself; only its presence is observable to the handlers). -/
structure Movable where
  position : ℚ × ℚ
  dragging : Bool
  mounted : Bool
  active_pointer_id : Option Int
  click_origin : ℚ × ℚ
  modal_origin : ℚ × ℚ
  deriving DecidableEq, Repr

/-- The initial signal values of `Movable`:
`position = (100.0, 100.0)`, `dragging = false`, `mounted = None`,
`active_pointer_id = None`, `click_origin = (0.0, 0.0)`,
`modal_origin = (0.0, 0.0)`. -/
def Movable.init : Movable :=
  { position := (100, 100)
    dragging := false
    mounted := false
    active_pointer_id := none
    click_origin := (0, 0)
    modal_origin := (0, 0) }

/-- `onmounted`: store the mounted handle. -/
def onmounted (s : Movable) : Movable :=
  { s with mounted := true }

/-- `onpointerdown`: ignore unless the trigger button is the primary button;
otherwise request pointer capture (when a handle is mounted), record the
click origin and the position origin, and start the drag owned by the
event's pointer id. -/
def onpointerdown (s : Movable) (evt : PointerData) : Movable × List CaptureCall :=
  if evt.trigger_button ≠ some MouseButton.Primary then
    (s, [])
  else
    let pid := evt.pointer_id
    let calls := if s.mounted then [CaptureCall.set_pointer_capture pid] else []
    let mouse := evt.client
    ({ s with
        click_origin := mouse
        modal_origin := s.position
        active_pointer_id := some pid
        dragging := true }, calls)

/-- `onpointermove`: ignore unless dragging and the event's pointer id is the
owner; otherwise set `position := modal_origin + (mouse - click_origin)`. -/
def onpointermove (s : Movable) (evt : PointerData) : Movable :=
  if !s.dragging then s
  else if s.active_pointer_id ≠ some evt.pointer_id then s
  else
    let mouse := evt.client
    let origin := s.click_origin
    let modal := s.modal_origin
    let delta := (mouse.1 - origin.1, mouse.2 - origin.2)
    { s with position := (modal.1 + delta.1, modal.2 + delta.2) }

/-- `onpointerup`: ignore unless the event's pointer id is the owner;
otherwise release pointer capture (when a handle is mounted), clear the
owner and stop dragging. -/
def onpointerup (s : Movable) (evt : PointerData) : Movable × List CaptureCall :=
  if s.active_pointer_id ≠ some evt.pointer_id then
    (s, [])
  else
    let calls :=
      if s.mounted then [CaptureCall.release_pointer_capture evt.pointer_id] else []
    ({ s with active_pointer_id := none, dragging := false }, calls)

/-- `onpointercancel`: same body as `onpointerup`. -/
def onpointercancel (s : Movable) (evt : PointerData) : Movable × List CaptureCall :=
  if s.active_pointer_id ≠ some evt.pointer_id then
    (s, [])
  else
    let calls :=
      if s.mounted then [CaptureCall.release_pointer_capture evt.pointer_id] else []
    ({ s with active_pointer_id := none, dragging := false }, calls)

/-- `onlostpointercapture`: unconditionally clear the owner and stop
dragging (the handler ignores its event argument). -/
def onlostpointercapture (s : Movable) : Movable :=
  { s with active_pointer_id := none, dragging := false }

/-- The events a `Movable` instance receives from the host. -/
inductive Event where
  | mountedEv
  | pointerdown (evt : PointerData)
  | pointermove (evt : PointerData)
  | pointerup (evt : PointerData)
  | pointercancel (evt : PointerData)
  | lostpointercapture
  deriving DecidableEq, Repr

/-- One dispatch step: deliver an event to the matching handler and keep the
resulting state. -/
def step (s : Movable) : Event → Movable
  | Event.mountedEv => onmounted s
  | Event.pointerdown evt => (onpointerdown s evt).1
  | Event.pointermove evt => onpointermove s evt
  | Event.pointerup evt => (onpointerup s evt).1
  | Event.pointercancel evt => (onpointercancel s evt).1
  | Event.lostpointercapture => onlostpointercapture s

/-- The drag-session invariant: the `dragging` flag is set exactly when an
owner pointer id is stored. -/
def DragInv (s : Movable) : Prop :=
  s.dragging = s.active_pointer_id.isSome

instance : DecidablePred DragInv := fun s => by
  unfold DragInv; infer_instance

/-- C1: while a drag session is active with owner pointer `A`, a
`pointermove` whose pointer id equals `A` sets the position to
`modal_origin + (client - click_origin)`, and leaves `click_origin` and
`modal_origin` (and the rest of the session) unchanged. -/
theorem C1_move_is_additive (s : Movable) (A : Int) (evt : PointerData)
    (hd : s.dragging = true) (ho : s.active_pointer_id = some A)
    (hp : evt.pointer_id = A) :
    (onpointermove s evt).position
        = (s.modal_origin.1 + (evt.client.1 - s.click_origin.1),
           s.modal_origin.2 + (evt.client.2 - s.click_origin.2))
      ∧ (onpointermove s evt).click_origin = s.click_origin
      ∧ (onpointermove s evt).modal_origin = s.modal_origin
      ∧ (onpointermove s evt).dragging = s.dragging
      ∧ (onpointermove s evt).active_pointer_id = s.active_pointer_id := by
  simp [onpointermove, hd, ho, hp]

/-- C1 witness: the displacement-law scenario.  A session with
`modal_origin = (10,10)`, `click_origin = (0,0)`, owner `1`: a move to
`(5,3)` yields position `(15,13)`, and a further move to `(-2,0)` yields
position `(8,10)` with both origins still unchanged. -/
theorem C1_move_is_additive_witness :
    let s0 : Movable :=
      { position := (10, 10), dragging := true, mounted := true,
        active_pointer_id := some 1, click_origin := (0, 0),
        modal_origin := (10, 10) }
    let m1 : PointerData := ⟨1, none, (5, 3)⟩
    let m2 : PointerData := ⟨1, none, (-2, 0)⟩
    (onpointermove s0 m1).position = (15, 13)
      ∧ (onpointermove (onpointermove s0 m1) m2).position = (8, 10)
      ∧ (onpointermove (onpointermove s0 m1) m2).click_origin = (0, 0)
      ∧ (onpointermove (onpointermove s0 m1) m2).modal_origin = (10, 10) := by
  intro s0 m1 m2
  have h1 := C1_move_is_additive s0 1 m1 rfl rfl rfl
  have h2 := C1_move_is_additive (onpointermove s0 m1) 1 m2
    (h1.2.2.2.1) (h1.2.2.2.2) rfl
  refine ⟨?_, ?_, ?_, ?_⟩
  · rw [h1.1]; norm_num
  · rw [h2.1, h1.2.1, h1.2.2.1]; norm_num
  · rw [h2.2.1, h1.2.1]
  · rw [h2.2.2.1, h1.2.2.1]

/-- C2: while a drag session is active with owner pointer `A`, a
`pointermove` for a different pointer `B` changes nothing: the whole state
is returned as it was. -/
theorem C2_foreign_move_ignored (s : Movable) (A : Int) (evt : PointerData)
    (hd : s.dragging = true) (ho : s.active_pointer_id = some A)
    (hp : evt.pointer_id ≠ A) :
    onpointermove s evt = s := by
  have : s.active_pointer_id ≠ some evt.pointer_id := by
    rw [ho]; intro h; exact hp (Option.some.inj h).symm
  simp [onpointermove, hd, this]

/-- C2 witness: a drag owned by pointer `1`; a move for pointer `2` leaves
the state untouched. -/
theorem C2_foreign_move_ignored_witness :
    let s0 : Movable :=
      { position := (10, 10), dragging := true, mounted := true,
        active_pointer_id := some 1, click_origin := (0, 0),
        modal_origin := (10, 10) }
    onpointermove s0 ⟨2, none, (5, 3)⟩ = s0 :=
  C2_foreign_move_ignored _ 1 _ rfl rfl (by decide)

/-- C4: from a state dragging with owner `A`, `lostpointercapture`
unconditionally clears the owner pointer id and stops dragging, whatever
`A` was. -/
theorem C4_lostpointercapture_resets (s : Movable) (A : Int)
    (hd : s.dragging = true) (ho : s.active_pointer_id = some A) :
    (onlostpointercapture s).active_pointer_id = none
      ∧ (onlostpointercapture s).dragging = false := by
  exact ⟨rfl, rfl⟩

/-- C4 witness: a session owned by pointer `7` is reset by
`lostpointercapture`. -/
theorem C4_lostpointercapture_resets_witness :
    let s0 : Movable :=
      { position := (1, 2), dragging := true, mounted := true,
        active_pointer_id := some 7, click_origin := (3, 4),
        modal_origin := (5, 6) }
    (onlostpointercapture s0).active_pointer_id = none
      ∧ (onlostpointercapture s0).dragging = false :=
  C4_lostpointercapture_resets _ 7 rfl rfl

/-- C5: on an idle machine (not dragging, no owner), `pointerup` and
`pointercancel` for any pointer id, and `lostpointercapture`, leave the
whole state unchanged — in particular the machine stays idle and the
position is unchanged — and issue no capture calls. -/
theorem C5_terminators_idempotent_on_idle (s : Movable) (evt : PointerData)
    (hd : s.dragging = false) (ho : s.active_pointer_id = none) :
    onpointerup s evt = (s, [])
      ∧ onpointercancel s evt = (s, [])
      ∧ onlostpointercapture s = s := by
  refine ⟨?_, ?_, ?_⟩
  · simp [onpointerup, ho]
  · simp [onpointercancel, ho]
  · cases s with
    | mk position dragging mounted active click modal =>
        simp only [onlostpointercapture] at *
        simp_all

/-- C5 witness: the terminating events are no-ops on the initial (idle)
state. -/
theorem C5_terminators_idempotent_on_idle_witness :
    onpointerup Movable.init ⟨3, none, (0, 0)⟩ = (Movable.init, [])
      ∧ onpointercancel Movable.init ⟨3, none, (0, 0)⟩ = (Movable.init, [])
      ∧ onlostpointercapture Movable.init = Movable.init :=
  C5_terminators_idempotent_on_idle Movable.init _ rfl rfl

/-- C6: from a state dragging with owner `A`, `pointerup (A)` clears the
owner and stops dragging, changing nothing else; a second `pointerup (A)`
delivered to the resulting state changes no state field at all. -/
theorem C6_session_closes_once (s : Movable) (A : Int) (evt : PointerData)
    (hd : s.dragging = true) (ho : s.active_pointer_id = some A)
    (hp : evt.pointer_id = A) :
    (onpointerup s evt).1 = { s with active_pointer_id := none, dragging := false }
      ∧ (onpointerup (onpointerup s evt).1 evt).1 = (onpointerup s evt).1 := by
  have h1 : (onpointerup s evt).1
      = { s with active_pointer_id := none, dragging := false } := by
    simp [onpointerup, ho, hp]
  refine ⟨h1, ?_⟩
  rw [h1]
  simp [onpointerup]

/-- C6 witness: closing a session owned by pointer `1` twice; only the first
`pointerup` changes the state. -/
theorem C6_session_closes_once_witness :
    let s0 : Movable :=
      { position := (10, 10), dragging := true, mounted := false,
        active_pointer_id := some 1, click_origin := (0, 0),
        modal_origin := (10, 10) }
    let u : PointerData := ⟨1, none, (4, 4)⟩
    (onpointerup s0 u).1
        = { s0 with active_pointer_id := none, dragging := false }
      ∧ (onpointerup (onpointerup s0 u).1 u).1 = (onpointerup s0 u).1 :=
  C6_session_closes_once _ 1 _ rfl rfl rfl

/-- C7: for a session opened by a primary-button `pointerdown` at client
coordinates `(cx, cy)` while the position is `(x0, y0)`, moving the owning
pointer to `(cx + dx, cy + dy)` and then back to `(cx, cy)` returns the
position exactly to `(x0, y0)`. -/
theorem C7_round_trip (s : Movable) (A : Int) (cx cy dx dy : ℚ) :
    (onpointermove
        (onpointermove
          (onpointerdown s ⟨A, some MouseButton.Primary, (cx, cy)⟩).1
          ⟨A, none, (cx + dx, cy + dy)⟩)
        ⟨A, none, (cx, cy)⟩).position = s.position := by
  simp [onpointerdown, onpointermove]

/-- C8: a `pointerdown` whose trigger button is not the primary button is a
complete no-op: the state is returned unchanged and no pointer-capture call
is requested. -/
theorem C8_non_primary_down_rejected (s : Movable) (evt : PointerData)
    (hb : evt.trigger_button ≠ some MouseButton.Primary) :
    onpointerdown s evt = (s, []) := by
  simp [onpointerdown, hb]

/-- C8 witness: a secondary-button `pointerdown` on the initial (idle) state
changes nothing and requests no capture. -/
theorem C8_non_primary_down_rejected_witness :
    onpointerdown Movable.init ⟨1, some MouseButton.Secondary, (5, 5)⟩
      = (Movable.init, []) :=
  C8_non_primary_down_rejected Movable.init _ (by decide)

/-- C3: the invariant `dragging = true ⇔ owner pointer id is set` holds in
the initial state and is preserved by every handler, so the machine is never
dragging without an owner nor owned without dragging. -/
theorem C3_drag_invariant :
    DragInv Movable.init ∧ ∀ s e, DragInv s → DragInv (step s e) := by
  constructor
  · rfl
  · intro s e h
    cases e with
    | mountedEv => simpa [step, onmounted, DragInv] using h
    | pointerdown evt =>
        simp only [step, onpointerdown]
        split
        · exact h
        · simp [DragInv]
    | pointermove evt =>
        simp only [step, onpointermove]
        split
        · exact h
        · split
          · exact h
          · simpa [DragInv] using h
    | pointerup evt =>
        simp only [step, onpointerup]
        split
        · exact h
        · simp [DragInv]
    | pointercancel evt =>
        simp only [step, onpointercancel]
        split
        · exact h
        · simp [DragInv]
    | lostpointercapture => simp [step, onlostpointercapture, DragInv]

/-- C3 witness: the invariant holds initially and after one step of
`lostpointercapture` from the initial state. -/
theorem C3_drag_invariant_witness :
    DragInv Movable.init
      ∧ DragInv (step Movable.init Event.lostpointercapture) :=
  ⟨C3_drag_invariant.1,
   C3_drag_invariant.2 Movable.init Event.lostpointercapture
     C3_drag_invariant.1⟩

/-- C9: position starts at the fixed default `(100, 100)`; `onmounted`,
`onpointerdown`, `onpointerup`, `onpointercancel` and `onlostpointercapture`
never modify it; and `onpointermove` leaves it unchanged whenever the
machine is not dragging or the event's pointer id is not the owner. -/
theorem C9_position_only_written_while_dragging :
    Movable.init.position = (100, 100)
      ∧ (∀ s, (onmounted s).position = s.position)
      ∧ (∀ s evt, (onpointerdown s evt).1.position = s.position)
      ∧ (∀ s evt, (onpointerup s evt).1.position = s.position)
      ∧ (∀ s evt, (onpointercancel s evt).1.position = s.position)
      ∧ (∀ s, (onlostpointercapture s).position = s.position)
      ∧ (∀ s evt,
          s.dragging = false ∨ s.active_pointer_id ≠ some evt.pointer_id →
            (onpointermove s evt).position = s.position) := by
  refine ⟨rfl, fun s => rfl, ?_, ?_, ?_, fun s => rfl, ?_⟩
  · intro s evt
    simp only [onpointerdown]
    split <;> rfl
  · intro s evt
    simp only [onpointerup]
    split <;> rfl
  · intro s evt
    simp only [onpointercancel]
    split <;> rfl
  · intro s evt h
    simp only [onpointermove]
    cases h with
    | inl h => simp [h]
    | inr h =>
        split
        · rfl
        · simp [h]

/-- C9 witness: a `pointermove` delivered to the initial (non-dragging)
state leaves the position at its prior value. -/
theorem C9_position_only_written_while_dragging_witness :
    (onpointermove Movable.init ⟨1, none, (5, 5)⟩).position
      = Movable.init.position :=
  C9_position_only_written_while_dragging.2.2.2.2.2.2
    Movable.init ⟨1, none, (5, 5)⟩ (Or.inl rfl)

/-- C10: a primary-button `pointerdown` delivered while the machine is
already dragging with owner `A` is not ignored: it overwrites the session in
place — `click_origin` becomes the event's client coordinates,
`modal_origin` the current position, the owner becomes the event's pointer
`B`, and the machine is still dragging. -/
theorem C10_down_during_drag_overwrites (s : Movable) (A B : Int)
    (evt : PointerData) (hd : s.dragging = true)
    (ho : s.active_pointer_id = some A)
    (hb : evt.trigger_button = some MouseButton.Primary)
    (hp : evt.pointer_id = B) :
    (onpointerdown s evt).1
        = { s with
            click_origin := evt.client
            modal_origin := s.position
            active_pointer_id := some B
            dragging := true }
      ∧ (onpointerdown s evt).1.dragging = true
      ∧ (onpointerdown s evt).1.active_pointer_id = some B := by
  have h1 : (onpointerdown s evt).1
      = { s with
          click_origin := evt.client
          modal_origin := s.position
          active_pointer_id := some B
          dragging := true } := by
    simp [onpointerdown, hb, hp]
  exact ⟨h1, by rw [h1], by rw [h1]⟩

/-- C10 witness: a drag owned by pointer `1` is taken over by a
primary-button `pointerdown` from pointer `2`. -/
theorem C10_down_during_drag_overwrites_witness :
    let s0 : Movable :=
      { position := (10, 10), dragging := true, mounted := true,
        active_pointer_id := some 1, click_origin := (0, 0),
        modal_origin := (10, 10) }
    let d : PointerData := ⟨2, some MouseButton.Primary, (7, 8)⟩
    (onpointerdown s0 d).1
        = { s0 with
            click_origin := (7, 8)
            modal_origin := (10, 10)
            active_pointer_id := some 2
            dragging := true }
      ∧ (onpointerdown s0 d).1.dragging = true
      ∧ (onpointerdown s0 d).1.active_pointer_id = some 2 :=
  C10_down_during_drag_overwrites _ 1 2 _ rfl rfl rfl rfl

end Jade
